import Mathlib

/-!
Verification development for the api-error-response repository: a shared
data contract for API responses (a success payload or a structured error),
ported to TypeScript (type declarations) and Go (structs, an interface and
constructor helpers).

The Go port is the executable authority: structures and functions below are
shallow embeddings of the Go source (api_error.go, the ApiResponse file and
the helper file). The TypeScript structural types (the .d.ts declarations)
are embedded as decidable shape predicates on raw records. Serialization
follows the semantics of the Go encoding/json struct tags used in the
source (omitempty on pointer and slice fields). The repository itself ships
no deserializer (decoding is delegated to the host JSON library), so the
deserializer here is modelled from the wire format given in the spec.
-/

namespace ApiErrorResponse

/-- JSON value tree, the target of serialization. Objects are ordered
association lists, matching the field order the Go encoder emits. -/
inductive Json where
  | null : Json
  | bool : Bool → Json
  | num : Int → Json
  | str : String → Json
  | arr : List Json → Json
  | obj : List (String × Json) → Json

/-- First-match key lookup in a serialized JSON object: returns none
exactly when no field of the object carries the key. -/
def jlookup : List (String × Json) → String → Option Json
  | [], _ => none
  | (k, v) :: rest, k2 => if k = k2 then some v else jlookup rest k2

/-- ErrorType from api_error.go: a string-valued category tag. Go declares
it as an open string type, so any string inhabits it. -/
abbrev ErrorType := String

/-- Constant ErrorTypeAuth from api_error.go. -/
def ErrorTypeAuth : ErrorType := "AUTH"

/-- Constant ErrorTypeValidation from api_error.go. -/
def ErrorTypeValidation : ErrorType := "VALIDATION"

/-- Constant ErrorTypeDomain from api_error.go. -/
def ErrorTypeDomain : ErrorType := "DOMAIN"

/-- Constant ErrorTypeConflict from api_error.go. -/
def ErrorTypeConflict : ErrorType := "CONFLICT"

/-- Constant ErrorTypeNotFound from api_error.go. -/
def ErrorTypeNotFound : ErrorType := "NOT_FOUND"

/-- Constant ErrorTypeRateLimit from api_error.go. -/
def ErrorTypeRateLimit : ErrorType := "RATE_LIMIT"

/-- Constant ErrorTypeSystem from api_error.go. -/
def ErrorTypeSystem : ErrorType := "SYSTEM"

/-- Constant ErrorTypeAPI from api_error.go. -/
def ErrorTypeAPI : ErrorType := "API"

/-- ErrorCode from the error code constants file: an open string type. -/
abbrev ErrorCode := String

/-- Constant ValidationFailed from the error code constants file. -/
def ValidationFailed : ErrorCode := "VALIDATION_FAILED"

/-- Constant ResourceNotFound from the error code constants file. -/
def ResourceNotFound : ErrorCode := "RESOURCE_NOT_FOUND"

/-- Constant RateLimitExceeded from the error code constants file. -/
def RateLimitExceeded : ErrorCode := "RATE_LIMIT_EXCEEDED"

/-- Constant AuthUnauthorized from the error code constants file. -/
def AuthUnauthorized : ErrorCode := "AUTH_UNAUTHORIZED"

/-- ValidationIssue from api_error.go: Code is a nil-able pointer, Path a
slice of arbitrary JSON-able values, Message a nil-able pointer, Meta a
map of arbitrary JSON-able values. Pointers become Option; the arbitrary
values become Json trees; the map becomes an ordered association list. -/
structure ValidationIssue where
  code : Option ErrorCode
  path : List Json
  message : Option String
  meta : List (String × Json)

/-- ValidationError struct from api_error.go: required Type tag, four
nil-able pointer fields and an Issues slice. A nil and an empty Issues
slice are observationally identical in the source (length, iteration and
serialization agree), so both are embedded as the empty list. -/
structure ValidationError where
  type : ErrorType
  code : Option ErrorCode
  message : Option String
  traceId : Option String
  timestamp : Option String
  issues : List ValidationIssue

/-- NonValidationError struct from api_error.go: required Type tag and four
nil-able pointer fields; the struct has no Issues field at all. -/
structure NonValidationError where
  type : ErrorType
  code : Option ErrorCode
  message : Option String
  traceId : Option String
  timestamp : Option String

/-- ApiError from api_error.go: an interface implemented by exactly the two
error structs; a (non-nil) interface value is one of the two dynamic
types, so it embeds as a sum. -/
inductive ApiError where
  | validation : ValidationError → ApiError
  | nonValidation : NonValidationError → ApiError

/-- GetType dispatch from api_error.go: both implementations return the
Type field of the receiver. -/
def ApiError.GetType : ApiError → ErrorType
  | .validation v => v.type
  | .nonValidation n => n.type

/-- GetCode dispatch from api_error.go. -/
def ApiError.GetCode : ApiError → Option ErrorCode
  | .validation v => v.code
  | .nonValidation n => n.code

/-- GetMessage dispatch from api_error.go. -/
def ApiError.GetMessage : ApiError → Option String
  | .validation v => v.message
  | .nonValidation n => n.message

/-- GetTraceID dispatch from api_error.go. -/
def ApiError.GetTraceID : ApiError → Option String
  | .validation v => v.traceId
  | .nonValidation n => n.traceId

/-- GetTimestamp dispatch from api_error.go. -/
def ApiError.GetTimestamp : ApiError → Option String
  | .validation v => v.timestamp
  | .nonValidation n => n.timestamp

/-- IsValidationError dispatch from api_error.go: the ValidationError
implementation returns true unconditionally, the NonValidationError one
returns false unconditionally; the result depends on the dynamic type
only, never on the Type tag. -/
def ApiError.IsValidationError : ApiError → Bool
  | .validation _ => true
  | .nonValidation _ => false

/-- Observer for issue presence: a ValidationError value carries its Issues
slice, a NonValidationError value has no issues field in the source, so
the observation is none. -/
def ApiError.issuesOf : ApiError → Option (List ValidationIssue)
  | .validation v => some v.issues
  | .nonValidation _ => none

/-- ApiResponse struct from the response file: Data is a nil-able pointer
to the payload, Error a nil-able interface value. Both embed as Option. -/
structure ApiResponse (T : Type) where
  data : Option T
  error : Option ApiError

/-- NewSuccessResponse from the response file: stores the payload, leaves
Error nil. -/
def NewSuccessResponse {T : Type} (d : T) : ApiResponse T :=
  { data := some d, error := none }

/-- NewErrorResponse from the response file: stores the supplied interface
value (which a caller may pass as nil, hence Option), leaves Data nil. -/
def NewErrorResponse {T : Type} (err : Option ApiError) : ApiResponse T :=
  { data := none, error := err }

/-- IsSuccess from the response file: true iff the Data pointer is non-nil. -/
def ApiResponse.IsSuccess {T : Type} (r : ApiResponse T) : Bool :=
  r.data.isSome

/-- IsError from the response file: true iff the Error interface is non-nil. -/
def ApiResponse.IsError {T : Type} (r : ApiResponse T) : Bool :=
  r.error.isSome

/-- A UTC wall-clock reading, the input the Go helpers obtain from
time.Now().UTC(). The helpers below take it as an explicit argument, the
standard embedding of the clock side effect. -/
structure DateTime where
  year : Nat
  month : Nat
  day : Nat
  hour : Nat
  minute : Nat
  second : Nat

/-- Left zero-padding to a given width, as the Go time formatter pads the
numeric components of the RFC3339 layout. -/
def padNum (w n : Nat) : String :=
  let s := toString n
  String.mk (List.replicate (w - s.length) '0') ++ s

/-- Format of time.Now().UTC().Format(time.RFC3339) in the helpers: the
RFC3339 layout instantiated at a UTC instant, which renders as
year-month-dayThour:minute:secondZ. -/
def formatRFC3339 (t : DateTime) : String :=
  padNum 4 t.year ++ "-" ++ padNum 2 t.month ++ "-" ++ padNum 2 t.day ++ "T" ++
    padNum 2 t.hour ++ ":" ++ padNum 2 t.minute ++ ":" ++ padNum 2 t.second ++ "Z"

/-- NewValidationError from the helper file: fixes the code to
ValidationFailed, the type to VALIDATION, stamps the clock, stores the
message, trace id and issues. The clock reading is passed explicitly. -/
def NewValidationError (now : DateTime) (message : String)
    (issues : List ValidationIssue) (traceID : String) : ValidationError :=
  { type := ErrorTypeValidation
    code := some ValidationFailed
    message := some message
    traceId := some traceID
    timestamp := some (formatRFC3339 now)
    issues := issues }

/-- NewAuthError from the helper file. -/
def NewAuthError (now : DateTime) (code : ErrorCode) (message : String)
    (traceID : String) : NonValidationError :=
  { type := ErrorTypeAuth
    code := some code
    message := some message
    traceId := some traceID
    timestamp := some (formatRFC3339 now) }

/-- NewDomainError from the helper file. -/
def NewDomainError (now : DateTime) (code : ErrorCode) (message : String)
    (traceID : String) : NonValidationError :=
  { type := ErrorTypeDomain
    code := some code
    message := some message
    traceId := some traceID
    timestamp := some (formatRFC3339 now) }

/-- NewSystemError from the helper file. -/
def NewSystemError (now : DateTime) (code : ErrorCode) (message : String)
    (traceID : String) : NonValidationError :=
  { type := ErrorTypeSystem
    code := some code
    message := some message
    traceId := some traceID
    timestamp := some (formatRFC3339 now) }

/-- NewNotFoundError from the helper file: fixes the code to
ResourceNotFound. -/
def NewNotFoundError (now : DateTime) (message : String)
    (traceID : String) : NonValidationError :=
  { type := ErrorTypeNotFound
    code := some ResourceNotFound
    message := some message
    traceId := some traceID
    timestamp := some (formatRFC3339 now) }

/-- NewRateLimitError from the helper file: fixes the code to
RateLimitExceeded. -/
def NewRateLimitError (now : DateTime) (message : String)
    (traceID : String) : NonValidationError :=
  { type := ErrorTypeRateLimit
    code := some RateLimitExceeded
    message := some message
    traceId := some traceID
    timestamp := some (formatRFC3339 now) }

/-- NewConflictError from the helper file. -/
def NewConflictError (now : DateTime) (code : ErrorCode) (message : String)
    (traceID : String) : NonValidationError :=
  { type := ErrorTypeConflict
    code := some code
    message := some message
    traceId := some traceID
    timestamp := some (formatRFC3339 now) }

/-- NewAPIError from the helper file. -/
def NewAPIError (now : DateTime) (code : ErrorCode) (message : String)
    (traceID : String) : NonValidationError :=
  { type := ErrorTypeAPI
    code := some code
    message := some message
    traceId := some traceID
    timestamp := some (formatRFC3339 now) }

/-- Raw record with the field vocabulary of the TypeScript error
declarations: every field optional, before checking against the ApiError
union. TypeScript interfaces are structural, so the embedding of the union
is a pair of decidable shape predicates on these records. -/
structure RawError where
  type : Option String
  code : Option String
  message : Option String
  traceId : Option String
  timestamp : Option String
  issues : Option (List ValidationIssue)

/-- Membership in the closed TypeScript ErrorType union of eight string
literals. -/
def isErrorTypeString (s : String) : Bool :=
  s == "AUTH" || s == "VALIDATION" || s == "DOMAIN" || s == "CONFLICT" ||
    s == "NOT_FOUND" || s == "RATE_LIMIT" || s == "SYSTEM" || s == "API"

/-- Assignability to the TypeScript ValidationError interface: the type tag
is required and fixed to the literal VALIDATION; issues may be absent or
any list. -/
def isValidationErrorShape (r : RawError) : Bool :=
  r.type == some "VALIDATION"

/-- Assignability to the TypeScript NonValidationError interface: the type
tag is required, drawn from the ErrorType union with VALIDATION excluded,
and the issues field is declared never, so it must be absent. -/
def isNonValidationErrorShape (r : RawError) : Bool :=
  match r.type with
  | some t => isErrorTypeString t && t != "VALIDATION" && r.issues.isNone
  | none => false

/-- Assignability to the TypeScript ApiError union: one of the two
variants. -/
def isApiErrorShape (r : RawError) : Bool :=
  isValidationErrorShape r || isNonValidationErrorShape r

/-- One optional object field under omitempty: a nil pointer contributes no
field, a present string contributes one. -/
def optField (k : String) : Option String → List (String × Json)
  | some s => [(k, Json.str s)]
  | none => []

/-- One slice-valued object field under omitempty: a slice of length zero
contributes no field. -/
def listField (k : String) (mk : Json) (empty : Bool) : List (String × Json) :=
  if empty then [] else [(k, mk)]

/-- Serialization of a ValidationIssue by the Go encoder: fields in struct
order, each under omitempty (nil pointers, empty slices and empty maps are
dropped). -/
def serializeIssue (i : ValidationIssue) : Json :=
  Json.obj (optField "code" i.code ++
    listField "path" (Json.arr i.path) i.path.isEmpty ++
    optField "message" i.message ++
    listField "meta" (Json.obj i.meta) i.meta.isEmpty)

/-- Serialization of an issues slice: elementwise. -/
def serializeIssues (l : List ValidationIssue) : List Json :=
  l.map serializeIssue

/-- Serialization of a ValidationError by the Go encoder: the type tag is
always emitted (its tag has no omitempty), the four pointer fields and the
issues slice are under omitempty, all in struct order. -/
def serializeValidationError (v : ValidationError) : Json :=
  Json.obj (("type", Json.str v.type) ::
    (optField "code" v.code ++
     optField "message" v.message ++
     optField "traceId" v.traceId ++
     optField "timestamp" v.timestamp ++
     listField "issues" (Json.arr (serializeIssues v.issues)) v.issues.isEmpty))

/-- Serialization of a NonValidationError by the Go encoder: as above, and
the struct has no issues field, so no issues key can ever appear. -/
def serializeNonValidationError (n : NonValidationError) : Json :=
  Json.obj (("type", Json.str n.type) ::
    (optField "code" n.code ++
     optField "message" n.message ++
     optField "traceId" n.traceId ++
     optField "timestamp" n.timestamp))

/-- Serialization of an ApiError interface value: the encoder dispatches on
the dynamic type. -/
def serializeApiError : ApiError → Json
  | .validation v => serializeValidationError v
  | .nonValidation n => serializeNonValidationError n

/-- Serialization of the response envelope: Data then Error, both under
omitempty, the payload encoded by the supplied payload encoder. -/
def serializeResponse {T : Type} (enc : T → Json) (r : ApiResponse T) : Json :=
  Json.obj ((match r.data with
              | some d => [("data", enc d)]
              | none => []) ++
            (match r.error with
              | some e => [("error", serializeApiError e)]
              | none => []))

/-- String projection of an optional JSON value. -/
def asString : Option Json → Option String
  | some (Json.str s) => some s
  | _ => none

/-- Modelled from the spec: the repository ships no deserializer (decoding
is delegated to the host JSON library), so issue decoding follows the wire
format of the spec: each field read by key, absent path and meta read as
empty. -/
def deserializeIssue (j : Json) : Option ValidationIssue :=
  match j with
  | Json.obj fs =>
    match jlookup fs "path", jlookup fs "meta" with
    | some (Json.arr _), some (Json.obj _)
    | some (Json.arr _), none
    | none, some (Json.obj _)
    | none, none =>
      some { code := asString (jlookup fs "code")
             path := match jlookup fs "path" with
                     | some (Json.arr xs) => xs
                     | _ => []
             message := asString (jlookup fs "message")
             meta := match jlookup fs "meta" with
                     | some (Json.obj m) => m
                     | _ => [] }
    | _, _ => none
  | _ => none

/-- Modelled from the spec: decoding of an issues array, failing if any
element fails. -/
def deserializeIssues : List Json → Option (List ValidationIssue)
  | [] => some []
  | j :: rest =>
    match deserializeIssue j, deserializeIssues rest with
    | some i, some is => some (i :: is)
    | _, _ => none

/-- Modelled from the spec: error decoding against the wire format. The
category tag alone selects the variant (issues belong to VALIDATION only);
an absent issues key on a VALIDATION error reads as the empty list. -/
def deserializeApiError (j : Json) : Option ApiError :=
  match j with
  | Json.obj fs =>
    match asString (jlookup fs "type") with
    | some t =>
      if t = "VALIDATION" then
        match jlookup fs "issues" with
        | some (Json.arr xs) =>
          match deserializeIssues xs with
          | some is =>
            some (ApiError.validation
              { type := t
                code := asString (jlookup fs "code")
                message := asString (jlookup fs "message")
                traceId := asString (jlookup fs "traceId")
                timestamp := asString (jlookup fs "timestamp")
                issues := is })
          | none => none
        | some _ => none
        | none =>
          some (ApiError.validation
            { type := t
              code := asString (jlookup fs "code")
              message := asString (jlookup fs "message")
              traceId := asString (jlookup fs "traceId")
              timestamp := asString (jlookup fs "timestamp")
              issues := [] })
      else
        some (ApiError.nonValidation
          { type := t
            code := asString (jlookup fs "code")
            message := asString (jlookup fs "message")
            traceId := asString (jlookup fs "traceId")
            timestamp := asString (jlookup fs "timestamp") })
    | none => none
  | _ => none

/-- Modelled from the spec: envelope decoding; exactly one of the data and
error keys must appear at the top level. -/
def deserializeResponse {T : Type} (dec : Json → Option T) (j : Json) :
    Option (ApiResponse T) :=
  match j with
  | Json.obj fs =>
    match jlookup fs "data", jlookup fs "error" with
    | some dj, none =>
      match dec dj with
      | some d => some { data := some d, error := none }
      | none => none
    | none, some ej =>
      match deserializeApiError ej with
      | some e => some { data := none, error := some e }
      | none => none
    | _, _ => none
  | _ => none

/-- Well-formedness of an error value: the category tag agrees with the
dynamic variant, as every error built by the construction helpers does. -/
def wfApiError : ApiError → Bool
  | .validation v => v.type == "VALIDATION"
  | .nonValidation n => n.type != "VALIDATION"

/-- Key lookup on a serialized JSON value: a field of an object, none on
anything else and on absent keys. -/
def lookupField : Json → String → Option Json
  | Json.obj fs, k => jlookup fs k
  | _, _ => none

/-- Alignment of an error value with the tagged-union reading: the
IsValidationError dispatch answers true exactly on category VALIDATION,
and issues are observable exactly on category VALIDATION. -/
def categoryDeterminesVariant (e : ApiError) : Prop :=
  (e.IsValidationError = true ↔ e.GetType = ErrorTypeValidation) ∧
  (e.issuesOf.isSome = true ↔ e.GetType = ErrorTypeValidation)

/-- Presence of all four optional base fields on a NonValidationError. -/
def baseFieldsPresentN (n : NonValidationError) : Prop :=
  n.code.isSome = true ∧ n.message.isSome = true ∧
    n.traceId.isSome = true ∧ n.timestamp.isSome = true

/-- Presence of all four optional base fields on a ValidationError. -/
def baseFieldsPresentV (v : ValidationError) : Prop :=
  v.code.isSome = true ∧ v.message.isSome = true ∧
    v.traceId.isSome = true ∧ v.timestamp.isSome = true

/-- C1: every envelope built by the public constructors, with any payload
for NewSuccessResponse and a well-formed (non-nil) error for
NewErrorResponse, has exactly one of the payload and the error present:
never both populated, never both absent. -/
theorem c1_envelope_exactly_one {T : Type} (d : T) (e : ApiError) :
    ((NewSuccessResponse d).data.isSome = true ∧
     (NewSuccessResponse d).error.isSome = false) ∧
    ((NewErrorResponse (T := T) (some e)).data.isSome = false ∧
     (NewErrorResponse (T := T) (some e)).error.isSome = true) :=
  ⟨⟨rfl, rfl⟩, ⟨rfl, rfl⟩⟩

/-- C2: on every envelope built by the public constructors with a non-nil
error, the predicates IsSuccess and IsError are mutually exclusive and
exhaustive: exactly one returns true and the other false. -/
theorem c2_predicates_exclusive_exhaustive {T : Type} (d : T) (e : ApiError) :
    ((NewSuccessResponse d).IsSuccess = true ∧
     (NewSuccessResponse d).IsError = false) ∧
    ((NewErrorResponse (T := T) (some e)).IsSuccess = false ∧
     (NewErrorResponse (T := T) (some e)).IsError = true) :=
  ⟨⟨rfl, rfl⟩, ⟨rfl, rfl⟩⟩

/-- C3: a raw record whose category is AUTH, or any category other than
VALIDATION, together with a non-empty issues list, is not assignable to
the ApiError contract: construction is rejected by the type rather than
accepted with the issues dropped. -/
theorem c3_nonvalidation_issues_rejected (r : RawError) (t : String)
    (i : ValidationIssue) (rest : List ValidationIssue)
    (htype : r.type = some t) (hne : t ≠ ErrorTypeValidation)
    (hissues : r.issues = some (i :: rest)) :
    isApiErrorShape r = false := by
  unfold isApiErrorShape isValidationErrorShape isNonValidationErrorShape
  rw [htype, hissues]
  unfold ErrorTypeValidation at hne
  simp [hne]

/-- Witness for C3 at a concrete record: category AUTH with one issue is
rejected by the contract. -/
theorem c3_witness :
    isApiErrorShape
      { type := some ErrorTypeAuth, code := none, message := none,
        traceId := none, timestamp := none,
        issues := some [{ code := none, path := [], message := none,
                          meta := [] }] } = false :=
  c3_nonvalidation_issues_rejected _ "AUTH" _ _ rfl (by decide) rfl

/-- C4 counterexample: the claim quantifies over every error value, but the
IsValidationError dispatch in the source depends on the dynamic type only,
never on the category tag, and the source puts no guard on direct struct
construction: a ValidationError value whose Type field is AUTH answers
IsValidationError true while its category is not VALIDATION. -/
theorem c4_counterexample :
    ¬ ((ApiError.validation
          { type := ErrorTypeAuth, code := none, message := none,
            traceId := none, timestamp := none,
            issues := [] }).IsValidationError = true ↔
       (ApiError.validation
          { type := ErrorTypeAuth, code := none, message := none,
            traceId := none, timestamp := none,
            issues := [] }).GetType = ErrorTypeValidation) := by
  decide

/-- C4 amended: for every error built by the construction helpers, the
category tag alone determines the variant: IsValidationError answers true
exactly when GetType is VALIDATION, and issues are observable, possibly
empty, exactly when the category is VALIDATION, absent for every other
category. -/
theorem c4_amended_category_determines_variant (now : DateTime)
    (code : ErrorCode) (message : String) (issues : List ValidationIssue)
    (traceID : String) :
    categoryDeterminesVariant
      (ApiError.validation (NewValidationError now message issues traceID)) ∧
    categoryDeterminesVariant
      (ApiError.nonValidation (NewAuthError now code message traceID)) ∧
    categoryDeterminesVariant
      (ApiError.nonValidation (NewDomainError now code message traceID)) ∧
    categoryDeterminesVariant
      (ApiError.nonValidation (NewSystemError now code message traceID)) ∧
    categoryDeterminesVariant
      (ApiError.nonValidation (NewNotFoundError now message traceID)) ∧
    categoryDeterminesVariant
      (ApiError.nonValidation (NewRateLimitError now message traceID)) ∧
    categoryDeterminesVariant
      (ApiError.nonValidation (NewConflictError now code message traceID)) ∧
    categoryDeterminesVariant
      (ApiError.nonValidation (NewAPIError now code message traceID)) := by
  refine ⟨?_, ?_, ?_, ?_, ?_, ?_, ?_, ?_⟩ <;>
    simp [categoryDeterminesVariant, ApiError.IsValidationError,
      ApiError.GetType, ApiError.issuesOf, NewValidationError, NewAuthError,
      NewDomainError, NewSystemError, NewNotFoundError, NewRateLimitError,
      NewConflictError, NewAPIError, ErrorTypeValidation, ErrorTypeAuth,
      ErrorTypeDomain, ErrorTypeSystem, ErrorTypeNotFound,
      ErrorTypeRateLimit, ErrorTypeConflict, ErrorTypeAPI]

/-- C6: every construction helper stamps the formatted clock reading taken
at construction into the timestamp field of its result, and the formatted
value, the RFC3339 rendering of a UTC instant, is never empty. -/
theorem c6_helpers_stamp_timestamp (now : DateTime) (code : ErrorCode)
    (message : String) (issues : List ValidationIssue) (traceID : String) :
    (NewValidationError now message issues traceID).timestamp =
      some (formatRFC3339 now) ∧
    (NewAuthError now code message traceID).timestamp =
      some (formatRFC3339 now) ∧
    (NewDomainError now code message traceID).timestamp =
      some (formatRFC3339 now) ∧
    (NewSystemError now code message traceID).timestamp =
      some (formatRFC3339 now) ∧
    (NewNotFoundError now message traceID).timestamp =
      some (formatRFC3339 now) ∧
    (NewRateLimitError now message traceID).timestamp =
      some (formatRFC3339 now) ∧
    (NewConflictError now code message traceID).timestamp =
      some (formatRFC3339 now) ∧
    (NewAPIError now code message traceID).timestamp =
      some (formatRFC3339 now) ∧
    formatRFC3339 now ≠ "" := by
  refine ⟨rfl, rfl, rfl, rfl, rfl, rfl, rfl, rfl, ?_⟩
  intro h
  have hlen := congrArg String.length h
  simp [formatRFC3339, String.length_append] at hlen
  exact absurd hlen.2 (by decide)

/-- C7: NewValidationError returns an error whose category is VALIDATION
and whose issues list is exactly the input list, element for element and
in order. -/
theorem c7_validation_error_keeps_issues (now : DateTime) (message : String)
    (issues : List ValidationIssue) (traceID : String) :
    (NewValidationError now message issues traceID).type =
      ErrorTypeValidation ∧
    (NewValidationError now message issues traceID).issues = issues :=
  ⟨rfl, rfl⟩

/-- C9: NewErrorResponse called with a nil error yields an envelope on
which IsSuccess and IsError are both false, while a non-nil error yields
IsError true: the exhaustiveness of the two predicates holds only under
the precondition that the supplied error is non-nil. -/
theorem c9_nil_error_breaks_exhaustiveness {T : Type} :
    (NewErrorResponse (T := T) none).IsSuccess = false ∧
    (NewErrorResponse (T := T) none).IsError = false ∧
    ∀ e : ApiError, (NewErrorResponse (T := T) (some e)).IsError = true :=
  ⟨rfl, rfl, fun _ => rfl⟩

/-- C10: every construction helper populates all four optional base fields,
code, message, traceId and timestamp, even when the caller supplies empty
strings, and the three helpers whose category implies a canonical code fix
it: VALIDATION_FAILED, RESOURCE_NOT_FOUND and RATE_LIMIT_EXCEEDED. -/
theorem c10_helpers_populate_base_fields (now : DateTime) (code : ErrorCode)
    (message : String) (issues : List ValidationIssue) (traceID : String) :
    baseFieldsPresentV (NewValidationError now message issues traceID) ∧
    baseFieldsPresentN (NewAuthError now code message traceID) ∧
    baseFieldsPresentN (NewDomainError now code message traceID) ∧
    baseFieldsPresentN (NewSystemError now code message traceID) ∧
    baseFieldsPresentN (NewNotFoundError now message traceID) ∧
    baseFieldsPresentN (NewRateLimitError now message traceID) ∧
    baseFieldsPresentN (NewConflictError now code message traceID) ∧
    baseFieldsPresentN (NewAPIError now code message traceID) ∧
    (NewValidationError now message issues traceID).code =
      some ValidationFailed ∧
    (NewNotFoundError now message traceID).code = some ResourceNotFound ∧
    (NewRateLimitError now message traceID).code = some RateLimitExceeded :=
  ⟨⟨rfl, rfl, rfl, rfl⟩, ⟨rfl, rfl, rfl, rfl⟩, ⟨rfl, rfl, rfl, rfl⟩,
   ⟨rfl, rfl, rfl, rfl⟩, ⟨rfl, rfl, rfl, rfl⟩, ⟨rfl, rfl, rfl, rfl⟩,
   ⟨rfl, rfl, rfl, rfl⟩, ⟨rfl, rfl, rfl, rfl⟩, rfl, rfl, rfl⟩

/-- Decoding a serialized issue recovers the issue. -/
theorem deserializeIssue_serializeIssue (i : ValidationIssue) :
    deserializeIssue (serializeIssue i) = some i := by
  obtain ⟨c, p, m, mt⟩ := i
  cases c <;> cases m <;> cases p <;> cases mt <;>
    simp [serializeIssue, deserializeIssue, optField, listField, jlookup,
      asString]

/-- Decoding a serialized issues array recovers the list, elementwise and
in order, for any length. -/
theorem deserializeIssues_serializeIssues (l : List ValidationIssue) :
    deserializeIssues (serializeIssues l) = some l := by
  induction l with
  | nil => rfl
  | cons x xs ih =>
    simp [serializeIssues, deserializeIssues] at ih ⊢
    simp [deserializeIssue_serializeIssue, ih]

/-- Decoding a serialized error recovers the error, for every error whose
category tag agrees with its variant. -/
theorem deserializeApiError_serializeApiError (e : ApiError)
    (h : wfApiError e = true) :
    deserializeApiError (serializeApiError e) = some e := by
  cases e with
  | validation v =>
    obtain ⟨t, c, m, tr, ts, is⟩ := v
    simp [wfApiError] at h
    subst h
    cases c <;> cases m <;> cases tr <;> cases ts <;> cases is <;>
      simp [serializeApiError, serializeValidationError, deserializeApiError,
        optField, listField, jlookup, asString,
        deserializeIssues_serializeIssues]
  | nonValidation n =>
    obtain ⟨t, c, m, tr, ts⟩ := n
    simp [wfApiError] at h
    cases c <;> cases m <;> cases tr <;> cases ts <;>
      simp [serializeApiError, serializeNonValidationError,
        deserializeApiError, optField, jlookup, asString, h]

/-- C5: serializing a constructed envelope and deserializing the result
reproduces the envelope, for success envelopes with any payload under any
faithful payload codec, and for failure envelopes holding any well-formed
error, covering issue lists of any length. -/
theorem c5_serialize_roundtrip {T : Type} (enc : T → Json)
    (dec : Json → Option T) (hcodec : ∀ t, dec (enc t) = some t) :
    (∀ d : T,
      deserializeResponse dec (serializeResponse enc (NewSuccessResponse d)) =
        some (NewSuccessResponse d)) ∧
    (∀ e : ApiError, wfApiError e = true →
      deserializeResponse dec
          (serializeResponse enc (NewErrorResponse (T := T) (some e))) =
        some (NewErrorResponse (T := T) (some e))) := by
  constructor
  · intro d
    simp [serializeResponse, deserializeResponse, NewSuccessResponse,
      jlookup, hcodec]
  · intro e he
    simp [serializeResponse, deserializeResponse, NewErrorResponse,
      jlookup, deserializeApiError_serializeApiError e he]

/-- Witness for C5 at concrete envelopes: a success envelope with a string
payload, and a failure envelope holding a validation error with one issue,
round-trip to themselves. -/
theorem c5_witness :
    deserializeResponse (fun j => asString (some j))
        (serializeResponse Json.str (NewSuccessResponse "usr_1")) =
      some (NewSuccessResponse "usr_1") ∧
    deserializeResponse (fun j => asString (some j))
        (serializeResponse Json.str (NewErrorResponse (T := String)
          (some (ApiError.validation
            (NewValidationError ⟨2026, 2, 18, 12, 35, 0⟩
              "Request validation failed"
              [{ code := some "VALIDATION_FIELD_REQUIRED",
                 path := [Json.str "user", Json.str "email"],
                 message := some "Email is required", meta := [] }]
              "trace-def456"))))) =
      some (NewErrorResponse (T := String)
        (some (ApiError.validation
          (NewValidationError ⟨2026, 2, 18, 12, 35, 0⟩
            "Request validation failed"
            [{ code := some "VALIDATION_FIELD_REQUIRED",
               path := [Json.str "user", Json.str "email"],
               message := some "Email is required", meta := [] }]
            "trace-def456")))) :=
  ⟨(c5_serialize_roundtrip Json.str (fun j => asString (some j))
      (fun _ => rfl)).1 "usr_1",
   (c5_serialize_roundtrip Json.str (fun j => asString (some j))
      (fun _ => rfl)).2 _ rfl⟩

/-- C8: serialization emits no key at all for an absent optional field and
never emits null for one: for every error value, the code, message,
traceId and timestamp keys of the serialized object are exactly the
present fields rendered as strings, so an absent traceId yields no traceId
key. -/
theorem c8_omit_if_absent (e : ApiError) :
    lookupField (serializeApiError e) "code" = Option.map Json.str e.GetCode ∧
    lookupField (serializeApiError e) "message" =
      Option.map Json.str e.GetMessage ∧
    lookupField (serializeApiError e) "traceId" =
      Option.map Json.str e.GetTraceID ∧
    lookupField (serializeApiError e) "timestamp" =
      Option.map Json.str e.GetTimestamp := by
  cases e with
  | validation v =>
    obtain ⟨t, c, m, tr, ts, is⟩ := v
    cases c <;> cases m <;> cases tr <;> cases ts <;> cases is <;>
      simp [serializeApiError, serializeValidationError, lookupField,
        ApiError.GetCode, ApiError.GetMessage, ApiError.GetTraceID,
        ApiError.GetTimestamp, optField, listField, jlookup]
  | nonValidation n =>
    obtain ⟨t, c, m, tr, ts⟩ := n
    cases c <;> cases m <;> cases tr <;> cases ts <;>
      simp [serializeApiError, serializeNonValidationError, lookupField,
        ApiError.GetCode, ApiError.GetMessage, ApiError.GetTraceID,
        ApiError.GetTimestamp, optField, jlookup]

end ApiErrorResponse
